import Mathlib

/-!
Shallow embedding of
`prediction_market_agent_tooling/markets/omen/data_models.py`.

Python machine integers are modelled as `Int` (Python ints are unbounded),
monetary/price fields as `Rat` (the float/Decimal arithmetic in the claims is
exact), fallible Python code (`raise ValueError`, `IndexError`, ...) as
`Except Err`.  Evaluation order of the Python source is preserved.
-/

namespace Omen

/-- The distinct failure points of the Python module, one constructor per
`raise` site (plus the built-in exceptions that list indexing and `int(·, 16)`
can raise). -/
inductive Err where
  /-- Source: `ValueError` from `get_boolean_outcome`: label is not a valid boolean
  outcome (the spec's `InvalidOutcomeLabel`). -/
  | invalidOutcome
  /-- Source: `ValueError` from `p_yes`: `outcomeTokenAmounts` has length ≠ 2 (the
  spec's `UnsupportedMarketShape`). -/
  | wrongNumOutcomes
  /-- Source: `ValueError` from `list.index`: the `"Yes"` label is absent from
  `outcomes` (the spec's `OutcomeNotFound`). -/
  | outcomeNotFound
  /-- Source: `ValueError` from `boolean_outcome`: market is not binary. -/
  | notBinary
  /-- Source: `ValueError` from `boolean_outcome`: market is not resolved. -/
  | notResolved
  /-- Source: `ValueError` from `to_generic_resolved_bet`: embedded market is not
  resolved (the spec's `MarketNotResolved`). -/
  | marketNotResolved
  /-- Failure of `check_not_none` on a `None` value. -/
  | checkNotNoneFailed
  /-- Python `IndexError`: list subscript out of range. -/
  | indexError
  /-- Python `ValueError` from `int(s, 16)`: not a hexadecimal numeral. -/
  | intParseError
  deriving DecidableEq, Repr

/-- Decidable equality on `Except`, for evaluating concrete results. -/
instance {e a : Type} [DecidableEq e] [DecidableEq a] : DecidableEq (Except e a) := fun x y =>
  match x, y with
  | .ok v, .ok w =>
    if h : v = w then .isTrue (by rw [h]) else .isFalse (fun hh => h (Except.ok.inj hh))
  | .error v, .error w =>
    if h : v = w then .isTrue (by rw [h]) else .isFalse (fun hh => h (Except.error.inj hh))
  | .ok _, .error _ => .isFalse (fun hh => Except.noConfusion hh)
  | .error _, .ok _ => .isFalse (fun hh => Except.noConfusion hh)

/-- Modelled from the spec: the result-or-error type of a fallible pure
operation (Python raising `ValueError`/`IndexError`). -/
abbrev PyResult (α : Type) := Except Err α

/-- Modelled from the spec: the external collaborator `check_not_none` of `tools/utils.py` (missing from the sources);
it returns the value if present and raises otherwise. -/
def check_not_none {α : Type} : Option α → PyResult α
  | some a => .ok a
  | none => .error .checkNotNoneFailed

/-- Modelled from the spec: the external collaborator `wei_to_xdai` of `tools/web3_utils.py` (missing from the sources);
the externally supplied pure wei-to-xDai unit conversion, 1 xDai = 10^18 wei. -/
def wei_to_xdai (w : ℤ) : ℚ := (w : ℚ) / (10 ^ 18 : ℚ)

/-- Modelled from the spec: the `Currency` tags of the external collaborator
`markets/data_models.py` (missing from the sources). -/
inductive Currency where
  | xDai
  | usd
  deriving DecidableEq, Repr

/-- Modelled from the spec: the `Resolution` enumeration (YES/NO) of the external
collaborator `markets/data_models.py` (missing from the sources). -/
inductive Resolution where
  | YES
  | NO
  deriving DecidableEq, Repr

/-- Modelled from the spec: the `BetAmount` record of the external collaborator
`markets/data_models.py` (missing from the sources): a signed amount with a
currency tag. -/
structure BetAmount where
  amount : ℚ
  currency : Currency
  deriving DecidableEq, Repr

/-- Modelled from the spec: the `ProfitAmount` record of the external collaborator
`markets/data_models.py` (missing from the sources): a signed profit with a
currency tag. -/
structure ProfitAmount where
  amount : ℚ
  currency : Currency
  deriving DecidableEq, Repr

/-- Modelled from the spec: the `ResolvedBet` record of the external collaborator
`markets/data_models.py` (missing from the sources): the normalized
resolved-bet projection.
`datetime` values are modelled by their integer unix timestamps. -/
structure ResolvedBet where
  amount : BetAmount
  outcome : Bool
  created_time : ℤ
  market_question : String
  market_outcome : Bool
  resolved_time : ℤ
  profit : ProfitAmount
  deriving DecidableEq, Repr

/-- Source: `OMEN_TRUE_OUTCOME = "Yes"`. -/
def OMEN_TRUE_OUTCOME : String := "Yes"

/-- Source: `OMEN_FALSE_OUTCOME = "No"`. -/
def OMEN_FALSE_OUTCOME : String := "No"

/-- Source: `get_boolean_outcome(outcome_str)`. -/
def get_boolean_outcome (outcome_str : String) : PyResult Bool :=
  if outcome_str = OMEN_TRUE_OUTCOME then .ok true
  else if outcome_str = OMEN_FALSE_OUTCOME then .ok false
  else .error .invalidOutcome

/-- Value of a single hexadecimal digit, as accepted by Python `int(·, 16)`. -/
def hexDigitVal (c : Char) : Option Nat :=
  if '0' ≤ c ∧ c ≤ '9' then some (c.toNat - 48)
  else if 'a' ≤ c ∧ c ≤ 'f' then some (c.toNat - 87)
  else if 'A' ≤ c ∧ c ≤ 'F' then some (c.toNat - 55)
  else none

/-- Fold a list of hexadecimal digits into a number; `none` on the empty list
or on a non-hex character. -/
def parseHexDigits : List Char → Option Nat
  | [] => none
  | cs => cs.foldl (fun acc c => acc.bind fun n =>
      (hexDigitVal c).map fun d => 16 * n + d) (some 0)

/-- Python `int(s, 16)` on a non-negative hexadecimal numeral, with an
optional `0x`/`0X` prefix. -/
def parseHex (s : String) : Option Nat :=
  let cs := s.data
  let cs := if cs.take 2 = ['0', 'x'] ∨ cs.take 2 = ['0', 'X'] then cs.drop 2 else cs
  parseHexDigits cs

/-- Python list subscript `l[i]` with an `Int` index (negative indices wrap
from the end, as in Python). -/
def pyGet {α : Type} (l : List α) (i : ℤ) : Option α :=
  if 0 ≤ i then l[i.toNat]?
  else if 0 ≤ (l.length : ℤ) + i then l[((l.length : ℤ) + i).toNat]?
  else none

/-- Source: `OmenMarket`, with the pydantic field types translated structurally.
Addresses and hex strings are `String`s; `Wei`/`OmenOutcomeToken` are `Int`;
`USD`/`xDai` are `Rat`. -/
structure OmenMarket where
  id : String
  title : String
  collateralVolume : ℤ
  usdVolume : ℚ
  collateralToken : String
  outcomes : List String
  outcomeTokenAmounts : List ℤ
  outcomeTokenMarginalPrices : Option (List ℚ) := none
  fee : Option ℤ := none
  resolutionTimestamp : Option ℤ := none
  answerFinalizedTimestamp : Option ℤ := none
  currentAnswer : Option String := none
  creationTimestamp : Option ℤ := none
  deriving DecidableEq, Repr

namespace OmenMarket

/-- Source: `OmenMarket.BET_AMOUNT_CURRENCY`. -/
def BET_AMOUNT_CURRENCY : Currency := Currency.xDai

/-- Source: `OmenMarket.is_open`. -/
def is_open (m : OmenMarket) : Bool := m.currentAnswer.isNone

/-- Source: `OmenMarket.is_resolved`. -/
def is_resolved (m : OmenMarket) : Bool :=
  m.answerFinalizedTimestamp.isSome && m.currentAnswer.isSome

/-- Source: `OmenMarket.is_binary`. -/
def is_binary (m : OmenMarket) : Bool := m.outcomes.length = 2

/-- Source: `OmenMarket.p_yes`.  The source's `outcomeTokenAmounts is None` guard is
unreachable here because the field's declared type is a (required) list. -/
def p_yes (m : OmenMarket) : PyResult ℚ :=
  if m.outcomeTokenAmounts.length ≠ 2 then .error .wrongNumOutcomes
  else
    match m.outcomes.findIdx? (· = OMEN_TRUE_OUTCOME) with
    | none => .error .outcomeNotFound
    | some true_index =>
      if m.outcomeTokenAmounts.sum = 0 then .ok (1 / 2)
      else
        match m.outcomeTokenAmounts[true_index]? with
        | none => .error .indexError
        | some a => .ok (1 - (a : ℚ) / (m.outcomeTokenAmounts.sum : ℚ))

/-- Source: `OmenMarket.p_no`. -/
def p_no (m : OmenMarket) : PyResult ℚ :=
  (m.p_yes).map (fun p => 1 - p)

/-- The hex-decoded index carried by `currentAnswer`, when present and
parseable. -/
def answerIndex (m : OmenMarket) : Option Nat := m.currentAnswer.bind parseHex

/-- Source: `OmenMarket.boolean_outcome`. -/
def boolean_outcome (m : OmenMarket) : PyResult Bool :=
  if m.is_binary = false then .error .notBinary
  else if m.is_resolved = false then .error .notResolved
  else
    match check_not_none m.currentAnswer with
    | .error e => .error e
    | .ok ans =>
      match parseHex ans with
      | none => .error .intParseError
      | some i =>
        match m.outcomes[i]? with
        | none => .error .indexError
        | some outcome => get_boolean_outcome outcome

/-- Source: `OmenMarket.get_resolution_enum`. -/
def get_resolution_enum (m : OmenMarket) : PyResult (Option Resolution) :=
  if m.is_resolved = false then .ok none
  else
    match m.boolean_outcome with
    | .error e => .error e
    | .ok b => .ok (some (if b then Resolution.YES else Resolution.NO))

end OmenMarket

/-- Source: `OmenBetCreator`. -/
structure OmenBetCreator where
  id : String
  deriving DecidableEq, Repr

/-- Source: `OmenBetFPMM`. -/
structure OmenBetFPMM where
  id : String
  outcomes : List String
  title : String
  answerFinalizedTimestamp : Option ℤ := none
  resolutionTimestamp : Option ℤ := none
  currentAnswer : Option String := none
  isPendingArbitration : Bool
  arbitrationOccurred : Bool
  openingTimestamp : ℤ
  deriving DecidableEq, Repr

namespace OmenBetFPMM

/-- Source: `OmenBetFPMM.is_resolved`. -/
def is_resolved (m : OmenBetFPMM) : Bool :=
  m.answerFinalizedTimestamp.isSome && m.currentAnswer.isSome

/-- Source: `OmenBetFPMM.is_binary`. -/
def is_binary (m : OmenBetFPMM) : Bool := m.outcomes.length = 2

/-- The hex-decoded index carried by `currentAnswer`, when present and
parseable. -/
def answerIndex (m : OmenBetFPMM) : Option Nat := m.currentAnswer.bind parseHex

/-- Source: `OmenBetFPMM.boolean_outcome` (same body as `OmenMarket.boolean_outcome`). -/
def boolean_outcome (m : OmenBetFPMM) : PyResult Bool :=
  if m.is_binary = false then .error .notBinary
  else if m.is_resolved = false then .error .notResolved
  else
    match check_not_none m.currentAnswer with
    | .error e => .error e
    | .ok ans =>
      match parseHex ans with
      | none => .error .intParseError
      | some i =>
        match m.outcomes[i]? with
        | none => .error .indexError
        | some outcome => get_boolean_outcome outcome

end OmenBetFPMM

/-- Source: `OmenBet`. -/
structure OmenBet where
  id : String
  title : String
  collateralToken : String
  outcomeTokenMarginalPrice : ℚ
  oldOutcomeTokenMarginalPrice : ℚ
  type : String
  creator : OmenBetCreator
  creationTimestamp : ℤ
  collateralAmount : ℤ
  collateralAmountUSD : ℚ
  feeAmount : ℤ
  outcomeIndex : ℤ
  outcomeTokensTraded : ℤ
  transactionHash : String
  fpmm : OmenBetFPMM
  deriving DecidableEq, Repr

namespace OmenBet

/-- Source: `OmenBet.boolean_outcome`: decode `fpmm.outcomes[outcomeIndex]`. -/
def boolean_outcome (b : OmenBet) : PyResult Bool :=
  match pyGet b.fpmm.outcomes b.outcomeIndex with
  | none => .error .indexError
  | some o => get_boolean_outcome o

/-- Source: `OmenBet.get_profit`.  The Python comparison
`self.boolean_outcome == self.fpmm.boolean_outcome` evaluates the bet's own
outcome first, then the market's; either failure aborts. -/
def get_profit (b : OmenBet) : PyResult ProfitAmount :=
  let bet_amount_xdai := wei_to_xdai b.collateralAmount
  match b.boolean_outcome with
  | .error e => .error e
  | .ok cb =>
    match b.fpmm.boolean_outcome with
    | .error e => .error e
    | .ok mb =>
      let profit :=
        if cb = mb then wei_to_xdai b.outcomeTokensTraded - bet_amount_xdai
        else -bet_amount_xdai
      let profit := profit - wei_to_xdai b.feeAmount
      .ok { amount := profit, currency := Currency.xDai }

/-- Source: `OmenBet.to_generic_resolved_bet`.  Keyword arguments of the Python
`ResolvedBet(...)` call are evaluated left to right: `outcome`,
`market_outcome`, `resolved_time`, then `profit`. -/
def to_generic_resolved_bet (b : OmenBet) : PyResult ResolvedBet :=
  if b.fpmm.is_resolved = false then .error .marketNotResolved
  else
    match b.boolean_outcome with
    | .error e => .error e
    | .ok outcome =>
      match b.fpmm.boolean_outcome with
      | .error e => .error e
      | .ok market_outcome =>
        match check_not_none b.fpmm.resolutionTimestamp with
        | .error e => .error e
        | .ok resolved_time =>
          match b.get_profit with
          | .error e => .error e
          | .ok profit =>
            .ok { amount := { amount := b.collateralAmountUSD
                              currency := Currency.xDai }
                  outcome := outcome
                  created_time := b.creationTimestamp
                  market_question := b.title
                  market_outcome := market_outcome
                  resolved_time := resolved_time
                  profit := profit }

end OmenBet

end Omen


namespace Omen


/-- Scenario market of the spec: outcomes `["Yes", "No"]`,
`outcomeTokenAmounts = [30, 70]`, not yet answered. -/
def Msc : OmenMarket :=
  { id := "0x1"
    title := "t"
    collateralVolume := 0
    usdVolume := 0
    collateralToken := "0x2"
    outcomes := ["Yes", "No"]
    outcomeTokenAmounts := [30, 70] }

/-- Counterexample market for the `p_yes` claim: the `"Yes"` label sits at
index 2 of `outcomes` while `outcomeTokenAmounts` has length 2. -/
def M1cex : OmenMarket := { Msc with outcomes := ["A", "B", "Yes"] }

/-- Counterexample market for the outcome-count claim: a single outcome label
but two token amounts. -/
def M5cex : OmenMarket := { Msc with outcomes := ["Yes"] }

/-- A resolved ternary market: `is_resolved` holds but the market is not
binary. -/
def M4cex : OmenMarket :=
  { Msc with
    outcomes := ["A", "B", "C"]
    answerFinalizedTimestamp := some 1
    currentAnswer := some "0x0" }

/-- A well-formed resolved binary market answering `"Yes"`. -/
def Mres : OmenMarket :=
  { Msc with answerFinalizedTimestamp := some 1, currentAnswer := some "0x0" }

/-- A resolved binary market whose decoded answer index (2) is out of range. -/
def M8cex : OmenMarket :=
  { Msc with answerFinalizedTimestamp := some 1, currentAnswer := some "0x2" }

/-- A resolved binary embedded market (answer `"0x1"`, i.e. `"No"`), with a
resolution timestamp. -/
def Fgood : OmenBetFPMM :=
  { id := "0xf"
    outcomes := ["Yes", "No"]
    title := "t"
    answerFinalizedTimestamp := some 5
    resolutionTimestamp := some 7
    currentAnswer := some "0x1"
    isPendingArbitration := false
    arbitrationOccurred := false
    openingTimestamp := 0 }

/-- The spec's profit scenario: collateral 10 wei, 15 outcome tokens traded,
fee 1 wei, chosen outcome `"No"` matching the resolved outcome. -/
def Bgood : OmenBet :=
  { id := "0xb"
    title := "t"
    collateralToken := "0xc"
    outcomeTokenMarginalPrice := 0
    oldOutcomeTokenMarginalPrice := 0
    type := "Buy"
    creator := { id := "0xd" }
    creationTimestamp := 3
    collateralAmount := 10
    collateralAmountUSD := 11
    feeAmount := 1
    outcomeIndex := 1
    outcomeTokensTraded := 15
    transactionHash := "0xe"
    fpmm := Fgood }

/-- A bet whose embedded market has a resolution timestamp but no finalized
answer, hence counts as unresolved. -/
def B3cex : OmenBet :=
  { Bgood with fpmm := { Fgood with answerFinalizedTimestamp := none } }

/-- A winning bet that received fewer outcome tokens than the collateral it
paid, with no fee. -/
def B6cex : OmenBet := { Bgood with outcomeTokensTraded := 5, feeAmount := 0 }

/-- The resolved-bet projection of `Bgood`. -/
def RBgood : ResolvedBet :=
  { amount := { amount := 11, currency := Currency.xDai }
    outcome := false
    created_time := 3
    market_question := "t"
    market_outcome := false
    resolved_time := 7
    profit := { amount := 1 / 250000000000000000, currency := Currency.xDai } }

lemma get_profit_ok (b : OmenBet) (cb mb : Bool)
    (hcb : b.boolean_outcome = .ok cb) (hmb : b.fpmm.boolean_outcome = .ok mb) :
    b.get_profit = .ok
      { amount :=
          (if cb = mb then wei_to_xdai b.outcomeTokensTraded - wei_to_xdai b.collateralAmount
           else -wei_to_xdai b.collateralAmount) - wei_to_xdai b.feeAmount
        currency := Currency.xDai } := by
  simp only [OmenBet.get_profit, hcb, hmb]

lemma boolean_outcome_ok_resolved (m : OmenMarket) (b : Bool)
    (h : m.boolean_outcome = .ok b) : m.is_resolved = true := by
  by_cases h1 : m.is_binary = false
  · simp [OmenMarket.boolean_outcome, h1] at h
  · by_cases h2 : m.is_resolved = false
    · simp [OmenMarket.boolean_outcome, h1, h2] at h
    · simpa using h2

lemma fpmm_boolean_outcome_ok_resolved (m : OmenBetFPMM) (b : Bool)
    (h : m.boolean_outcome = .ok b) : m.is_resolved = true := by
  by_cases h1 : m.is_binary = false
  · simp [OmenBetFPMM.boolean_outcome, h1] at h
  · by_cases h2 : m.is_resolved = false
    · simp [OmenBetFPMM.boolean_outcome, h1, h2] at h
    · simpa using h2

lemma p_yes_formula (m : OmenMarket) (ti : ℕ)
    (h2 : m.outcomeTokenAmounts.length = 2)
    (hti : m.outcomes.findIdx? (· = OMEN_TRUE_OUTCOME) = some ti) :
    (m.outcomeTokenAmounts.sum = 0 → m.p_yes = .ok (1 / 2)) ∧
    (∀ a : ℤ, m.outcomeTokenAmounts[ti]? = some a → m.outcomeTokenAmounts.sum ≠ 0 →
      m.p_yes = .ok (1 - (a : ℚ) / (m.outcomeTokenAmounts.sum : ℚ))) := by
  constructor
  · intro hsum
    simp [OmenMarket.p_yes, h2, hti, hsum]
  · intro a ha hsum
    simp [OmenMarket.p_yes, h2, hti, hsum, ha]

lemma p_yes_len_ne (m : OmenMarket) (h : m.outcomeTokenAmounts.length ≠ 2) :
    m.p_yes = .error .wrongNumOutcomes := by
  simp [OmenMarket.p_yes, h]

lemma resolution_enum_spec (m : OmenMarket) :
    (m.is_resolved = false → m.get_resolution_enum = .ok none) ∧
    (∀ b : Bool, m.boolean_outcome = .ok b →
      m.get_resolution_enum = .ok (some (if b then Resolution.YES else Resolution.NO))) := by
  constructor
  · intro hr
    simp [OmenMarket.get_resolution_enum, hr]
  · intro b hb
    have hres := boolean_outcome_ok_resolved m b hb
    simp [OmenMarket.get_resolution_enum, hres, hb]

lemma get_boolean_outcome_error_eq (s : String) (e : Err)
    (h : get_boolean_outcome s = .error e) : e = .invalidOutcome := by
  unfold get_boolean_outcome at h
  split_ifs at h
  all_goals simp_all

lemma get_boolean_outcome_ne_mnr (s : String) :
    get_boolean_outcome s ≠ .error .marketNotResolved := by
  intro h
  cases get_boolean_outcome_error_eq s _ h

lemma get_boolean_outcome_ne_idx (s : String) :
    get_boolean_outcome s ≠ .error .indexError := by
  intro h
  cases get_boolean_outcome_error_eq s _ h

lemma check_not_none_ne_mnr {α : Type} (o : Option α) :
    check_not_none o ≠ .error .marketNotResolved := by
  cases o <;> simp [check_not_none]

lemma fpmm_currentAnswer_some (m : OmenBetFPMM) (h : ¬m.is_resolved = false) :
    ∃ a, m.currentAnswer = some a := by
  rcases hca : m.currentAnswer with _ | a
  · exact absurd (by simp [OmenBetFPMM.is_resolved, hca]) h
  · exact ⟨a, rfl⟩

lemma fpmm_boolean_outcome_ne_mnr (m : OmenBetFPMM) :
    m.boolean_outcome ≠ .error .marketNotResolved := by
  intro h
  by_cases h1 : m.is_binary = false
  · simp [OmenBetFPMM.boolean_outcome, h1] at h
  · by_cases h2 : m.is_resolved = false
    · simp [OmenBetFPMM.boolean_outcome, h1, h2] at h
    · obtain ⟨a, hca⟩ := fpmm_currentAnswer_some m h2
      rcases hpa : parseHex a with _ | i
      · simp [OmenBetFPMM.boolean_outcome, h1, h2, hca, check_not_none, hpa] at h
      · rcases hgt : m.outcomes[i]? with _ | o
        · simp [OmenBetFPMM.boolean_outcome, h1, h2, hca, check_not_none, hpa, hgt] at h
        · simp [OmenBetFPMM.boolean_outcome, h1, h2, hca, check_not_none, hpa, hgt] at h
          exact get_boolean_outcome_ne_mnr o h

lemma bet_boolean_outcome_ne_mnr (b : OmenBet) :
    b.boolean_outcome ≠ .error .marketNotResolved := by
  intro h
  rcases hg : pyGet b.fpmm.outcomes b.outcomeIndex with _ | o
  · simp [OmenBet.boolean_outcome, hg] at h
  · simp [OmenBet.boolean_outcome, hg] at h
    exact get_boolean_outcome_ne_mnr o h

lemma get_profit_ne_mnr (b : OmenBet) :
    b.get_profit ≠ .error .marketNotResolved := by
  intro h
  cases hcb : b.boolean_outcome with
  | error e =>
    simp [OmenBet.get_profit, hcb] at h
    subst h
    exact bet_boolean_outcome_ne_mnr b hcb
  | ok cb =>
    cases hmb : b.fpmm.boolean_outcome with
    | error e =>
      simp [OmenBet.get_profit, hcb, hmb] at h
      subst h
      exact fpmm_boolean_outcome_ne_mnr b.fpmm hmb
    | ok mb => simp [OmenBet.get_profit, hcb, hmb] at h

lemma to_generic_mnr_iff (b : OmenBet) :
    b.to_generic_resolved_bet = .error .marketNotResolved ↔ b.fpmm.is_resolved = false := by
  constructor
  · intro h
    by_contra hr
    rw [OmenBet.to_generic_resolved_bet, if_neg hr] at h
    cases hcb : b.boolean_outcome with
    | error e =>
      simp [hcb] at h
      subst h
      exact bet_boolean_outcome_ne_mnr b hcb
    | ok cb =>
      cases hmb : b.fpmm.boolean_outcome with
      | error e =>
        simp [hcb, hmb] at h
        subst h
        exact fpmm_boolean_outcome_ne_mnr b.fpmm hmb
      | ok mb =>
        cases hcn : check_not_none b.fpmm.resolutionTimestamp with
        | error e =>
          simp [hcb, hmb, hcn] at h
          subst h
          exact check_not_none_ne_mnr b.fpmm.resolutionTimestamp hcn
        | ok rt =>
          cases hp : b.get_profit with
          | error e =>
            simp [hcb, hmb, hcn, hp] at h
            subst h
            exact get_profit_ne_mnr b hp
          | ok pr => simp [hcb, hmb, hcn, hp] at h
  · intro hr
    simp [OmenBet.to_generic_resolved_bet, hr]

lemma to_generic_ok (b : OmenBet) (cb mb : Bool) (rt : ℤ)
    (hcb : b.boolean_outcome = .ok cb) (hmb : b.fpmm.boolean_outcome = .ok mb)
    (hrt : b.fpmm.resolutionTimestamp = some rt) :
    b.to_generic_resolved_bet = .ok
      { amount := { amount := b.collateralAmountUSD, currency := Currency.xDai }
        outcome := cb
        created_time := b.creationTimestamp
        market_question := b.title
        market_outcome := mb
        resolved_time := rt
        profit :=
          { amount :=
              (if cb = mb then wei_to_xdai b.outcomeTokensTraded - wei_to_xdai b.collateralAmount
               else -wei_to_xdai b.collateralAmount) - wei_to_xdai b.feeAmount
            currency := Currency.xDai } } := by
  have hres : b.fpmm.is_resolved = true := fpmm_boolean_outcome_ok_resolved b.fpmm mb hmb
  have hp := get_profit_ok b cb mb hcb hmb
  simp [OmenBet.to_generic_resolved_bet, hres, hcb, hmb, hrt, check_not_none, hp]

lemma fpmm_boolean_outcome_fails (m : OmenBetFPMM)
    (h : m.is_resolved = false ∨ m.is_binary = false ∨
      (∃ (i : ℕ) (lbl : String), m.answerIndex = some i ∧ m.outcomes[i]? = some lbl ∧
        lbl ≠ OMEN_TRUE_OUTCOME ∧ lbl ≠ OMEN_FALSE_OUTCOME)) :
    ∃ e, m.boolean_outcome = .error e := by
  by_cases hb : m.is_binary = false
  · exact ⟨.notBinary, by simp [OmenBetFPMM.boolean_outcome, hb]⟩
  · by_cases hr : m.is_resolved = false
    · exact ⟨.notResolved, by simp [OmenBetFPMM.boolean_outcome, hb, hr]⟩
    · rcases h with h | h | ⟨i, lbl, hai, hlbl, h1, h2⟩
      · exact absurd h hr
      · exact absurd h hb
      · obtain ⟨a, hca, hpa⟩ : ∃ a, m.currentAnswer = some a ∧ parseHex a = some i := by
          rcases hca : m.currentAnswer with _ | a
          · rw [OmenBetFPMM.answerIndex, hca] at hai
            simp at hai
          · refine ⟨a, rfl, ?_⟩
            rw [OmenBetFPMM.answerIndex, hca] at hai
            exact hai
        refine ⟨.invalidOutcome, ?_⟩
        simp [OmenBetFPMM.boolean_outcome, hb, hr, hca, check_not_none, hpa, hlbl,
          get_boolean_outcome, h1, h2]

/-- C1 (corrected): for every OmenMarket whose outcomeTokenAmounts list has
length exactly 2 and whose outcomes list first contains the Yes label at index
ti, p_yes returns 0.5 when the token amounts sum to zero; and when the sum is
nonzero and ti indexes into the token list, p_yes returns 1 minus the amount at
ti divided by the sum. -/
theorem C1_thm (m : OmenMarket) (ti : ℕ)
    (h2 : m.outcomeTokenAmounts.length = 2)
    (hti : m.outcomes.findIdx? (· = OMEN_TRUE_OUTCOME) = some ti) :
    (m.outcomeTokenAmounts.sum = 0 → m.p_yes = .ok (1 / 2)) ∧
    (∀ a : ℤ, m.outcomeTokenAmounts[ti]? = some a → m.outcomeTokenAmounts.sum ≠ 0 →
      m.p_yes = .ok (1 - (a : ℚ) / (m.outcomeTokenAmounts.sum : ℚ))) :=
  p_yes_formula m ti h2 hti

/-- C1 witness: the spec scenario, outcomes [Yes, No] with token amounts
[30, 70], yields p_yes = 0.70. -/
theorem C1_witness : Msc.p_yes = .ok (7 / 10) := by
  have h := (C1_thm Msc 0 (by rfl) (by rfl)).2 30 (by rfl) (by decide)
  norm_num [Msc] at h
  exact h

/-- C1 counterexample: a market with outcomes [A, B, Yes] and token amounts
[30, 70] satisfies the premise of the claim as stated (token list of length 2,
Yes present, nonzero sum) yet p_yes raises an index error instead of returning
any probability. -/
theorem C1_counterexample :
    M1cex.outcomeTokenAmounts.length = 2 ∧ "Yes" ∈ M1cex.outcomes ∧
    M1cex.outcomeTokenAmounts.sum ≠ 0 ∧
    M1cex.p_yes = .error .indexError ∧ ∀ q : ℚ, M1cex.p_yes ≠ .ok q := by
  refine ⟨by rfl, by decide, by decide, by rfl, ?_⟩
  intro q h
  rw [show M1cex.p_yes = .error .indexError from rfl] at h
  exact Except.noConfusion h

/-- C2 (confirmed): for every OmenBet whose own and market boolean outcomes
decode, get_profit returns conversion of outcomeTokensTraded minus conversion
of collateralAmount minus conversion of feeAmount when the chosen outcome
equals the resolved outcome, and minus conversion of collateralAmount minus
conversion of feeAmount otherwise, tagged with the xDai currency. -/
theorem C2_thm (b : OmenBet) (cb mb : Bool)
    (hcb : b.boolean_outcome = .ok cb) (hmb : b.fpmm.boolean_outcome = .ok mb) :
    b.get_profit = .ok
      { amount :=
          (if cb = mb then wei_to_xdai b.outcomeTokensTraded - wei_to_xdai b.collateralAmount
           else -wei_to_xdai b.collateralAmount) - wei_to_xdai b.feeAmount
        currency := Currency.xDai } :=
  get_profit_ok b cb mb hcb hmb

/-- C2 witness: the spec scenario, collateral 10 wei, 15 outcome tokens
traded, fee 1 wei, chosen outcome matching the resolved one. -/
theorem C2_witness :
    Bgood.get_profit = .ok { amount := 1 / 250000000000000000, currency := Currency.xDai } := by
  have h := C2_thm Bgood false false (by rfl) (by rfl)
  norm_num [Bgood, wei_to_xdai] at h
  exact h

/-- C3 (corrected): to_generic_resolved_bet fails with the market-not-resolved
error exactly when the embedded market is not resolved, that is, lacks an
answer-finalized timestamp or a current answer; the presence of a resolution
timestamp is irrelevant to that check. When both boolean outcomes decode and a
resolution timestamp is present, it succeeds with the normalized projection. -/
theorem C3_thm (b : OmenBet) :
    (b.to_generic_resolved_bet = .error .marketNotResolved ↔ b.fpmm.is_resolved = false) ∧
    (∀ (cb mb : Bool) (rt : ℤ), b.boolean_outcome = .ok cb →
      b.fpmm.boolean_outcome = .ok mb → b.fpmm.resolutionTimestamp = some rt →
      b.to_generic_resolved_bet = .ok
        { amount := { amount := b.collateralAmountUSD, currency := Currency.xDai }
          outcome := cb
          created_time := b.creationTimestamp
          market_question := b.title
          market_outcome := mb
          resolved_time := rt
          profit :=
            { amount :=
                (if cb = mb then wei_to_xdai b.outcomeTokensTraded - wei_to_xdai b.collateralAmount
                 else -wei_to_xdai b.collateralAmount) - wei_to_xdai b.feeAmount
              currency := Currency.xDai } }) :=
  ⟨to_generic_mnr_iff b, fun cb mb rt hcb hmb hrt => to_generic_ok b cb mb rt hcb hmb hrt⟩

/-- C3 witness: an unresolved embedded market fails with the
market-not-resolved error, and a fully resolved well-formed bet succeeds. -/
theorem C3_witness :
    B3cex.to_generic_resolved_bet = .error .marketNotResolved ∧
    Bgood.to_generic_resolved_bet = .ok RBgood := by
  constructor
  · exact (C3_thm B3cex).1.mpr (by rfl)
  · have h := (C3_thm Bgood).2 false false 7 (by rfl) (by rfl) (by rfl)
    norm_num [Bgood, RBgood, wei_to_xdai] at h ⊢
    exact h

/-- C3 counterexample: a bet whose embedded market has a resolution timestamp
but no finalized answer fails with the market-not-resolved error, refuting the
claim as stated in both directions. -/
theorem C3_counterexample :
    B3cex.fpmm.resolutionTimestamp = some 7 ∧
    B3cex.to_generic_resolved_bet = .error .marketNotResolved :=
  ⟨rfl, rfl⟩

/-- C4 (corrected): an unresolved market yields the none resolution; a resolved
market yields YES or NO provided its boolean outcome decodes. The claim as
stated, that get_resolution_enum never fails on any resolved market, is
refuted by the counterexample. -/
theorem C4_thm (m : OmenMarket) :
    (m.is_resolved = false → m.get_resolution_enum = .ok none) ∧
    (∀ b : Bool, m.boolean_outcome = .ok b →
      m.get_resolution_enum = .ok (some (if b then Resolution.YES else Resolution.NO))) :=
  resolution_enum_spec m

/-- C4 witness: a resolved binary Yes market maps to YES, and an unanswered
market maps to the none resolution. -/
theorem C4_witness :
    Mres.get_resolution_enum = .ok (some Resolution.YES) ∧
    Msc.get_resolution_enum = .ok none := by
  constructor
  · have h := (C4_thm Mres).2 true (by rfl)
    simpa using h
  · exact (C4_thm Msc).1 (by rfl)

/-- C4 counterexample: a resolved market with three outcome labels makes
get_resolution_enum raise the not-binary error rather than return YES or NO. -/
theorem C4_counterexample :
    M4cex.is_resolved = true ∧ M4cex.get_resolution_enum = .error .notBinary := by
  exact ⟨by rfl, by rfl⟩

/-- C5 (corrected): p_yes fails with the unsupported-shape error whenever the
outcomeTokenAmounts list does not have exactly two entries; the source checks
the token-amount list, not the outcomes list named by the claim as stated. -/
theorem C5_thm (m : OmenMarket) (h : m.outcomeTokenAmounts.length ≠ 2) :
    m.p_yes = .error .wrongNumOutcomes :=
  p_yes_len_ne m h

/-- C5 witness: three token amounts make p_yes fail with the
unsupported-shape error. -/
theorem C5_witness :
    ({ Msc with outcomeTokenAmounts := [1, 2, 3] } : OmenMarket).p_yes
      = .error .wrongNumOutcomes :=
  C5_thm { Msc with outcomeTokenAmounts := [1, 2, 3] } (by decide)

/-- C5 counterexample: a market whose outcomes list has a single label but
whose token-amount list has two entries computes p_yes = 0.70 without any
error, refuting the claim as stated. -/
theorem C5_counterexample :
    M5cex.outcomes.length ≠ 2 ∧ M5cex.p_yes = .ok (7 / 10) := by
  refine ⟨by decide, ?_⟩
  have h := (p_yes_formula M5cex 0 (by rfl) (by rfl)).2 30 (by rfl) (by decide)
  norm_num [M5cex, Msc] at h
  exact h

/-- C6 (corrected): for a bet whose chosen outcome equals the resolved outcome,
the pre-fee profit is non-negative provided the outcome tokens traded are at
least the collateral, and get_profit strictly decreases as the fee increases
with all other fields held fixed. The unconditional non-negativity of the
claim as stated is refuted by the counterexample. -/
theorem C6_thm (b : OmenBet) (cb mb : Bool)
    (hcb : b.boolean_outcome = .ok cb) (hmb : b.fpmm.boolean_outcome = .ok mb)
    (_heq : cb = mb) :
    (b.collateralAmount ≤ b.outcomeTokensTraded →
      0 ≤ wei_to_xdai b.outcomeTokensTraded - wei_to_xdai b.collateralAmount) ∧
    (∀ f₁ f₂ : ℤ, f₁ < f₂ → ∀ p₁ p₂ : ProfitAmount,
      OmenBet.get_profit { b with feeAmount := f₁ } = .ok p₁ →
      OmenBet.get_profit { b with feeAmount := f₂ } = .ok p₂ →
      p₂.amount < p₁.amount) := by
  constructor
  · intro hle
    rw [sub_nonneg]
    unfold wei_to_xdai
    gcongr
  · intro f₁ f₂ hf p₁ p₂ hp₁ hp₂
    have h₁ := get_profit_ok { b with feeAmount := f₁ } cb mb hcb hmb
    have h₂ := get_profit_ok { b with feeAmount := f₂ } cb mb hcb hmb
    rw [hp₁] at h₁
    rw [hp₂] at h₂
    have e₁ := Except.ok.inj h₁
    have e₂ := Except.ok.inj h₂
    rw [e₁, e₂]
    have hfq : wei_to_xdai f₁ < wei_to_xdai f₂ := by
      unfold wei_to_xdai
      rw [div_lt_div_iff_of_pos_right (by norm_num)]
      exact_mod_cast hf
    exact sub_lt_sub_left hfq _

/-- C6 witness: the spec scenario bet has non-negative pre-fee profit, and
raising the fee from 1 to 2 wei strictly lowers the profit. -/
theorem C6_witness :
    (0 ≤ wei_to_xdai Bgood.outcomeTokensTraded - wei_to_xdai Bgood.collateralAmount) ∧
    ∃ p₁ p₂ : ProfitAmount,
      OmenBet.get_profit { Bgood with feeAmount := 1 } = .ok p₁ ∧
      OmenBet.get_profit { Bgood with feeAmount := 2 } = .ok p₂ ∧
      p₂.amount < p₁.amount := by
  have h := C6_thm Bgood false false (by rfl) (by rfl) rfl
  have h₁ := get_profit_ok { Bgood with feeAmount := 1 } false false (by rfl) (by rfl)
  have h₂ := get_profit_ok { Bgood with feeAmount := 2 } false false (by rfl) (by rfl)
  exact ⟨h.1 (by decide), _, _, h₁, h₂, h.2 1 2 (by decide) _ _ h₁ h₂⟩

/-- C6 counterexample: a winning bet that received 5 outcome tokens for 10 wei
of collateral has strictly negative profit even before any fee is subtracted. -/
theorem C6_counterexample :
    B6cex.boolean_outcome = .ok false ∧ B6cex.fpmm.boolean_outcome = .ok false ∧
    B6cex.feeAmount = 0 ∧
    wei_to_xdai B6cex.outcomeTokensTraded - wei_to_xdai B6cex.collateralAmount < 0 ∧
    B6cex.get_profit =
      .ok { amount := -(1 / 200000000000000000 : ℚ), currency := Currency.xDai } ∧
    (-(1 / 200000000000000000 : ℚ)) < 0 := by
  refine ⟨by rfl, by rfl, by rfl, by norm_num [B6cex, Bgood, wei_to_xdai], ?_, by norm_num⟩
  have h := get_profit_ok B6cex false false (by rfl) (by rfl)
  norm_num [B6cex, Bgood, wei_to_xdai] at h
  exact h

/-- C7 (confirmed): get_boolean_outcome returns true exactly on the configured
Yes constant, false exactly on the configured No constant, and the
invalid-outcome error on every other string. -/
theorem C7_thm (s : String) :
    (get_boolean_outcome s = .ok true ↔ s = OMEN_TRUE_OUTCOME) ∧
    (get_boolean_outcome s = .ok false ↔ s = OMEN_FALSE_OUTCOME) ∧
    (s ≠ OMEN_TRUE_OUTCOME → s ≠ OMEN_FALSE_OUTCOME →
      get_boolean_outcome s = .error .invalidOutcome) := by
  unfold get_boolean_outcome
  split_ifs with h1 h2
  · subst h1
    refine ⟨by simp, ?_, ?_⟩
    · simp [OMEN_TRUE_OUTCOME, OMEN_FALSE_OUTCOME]
    · intro ha _
      exact absurd rfl ha
  · subst h2
    refine ⟨by simp [OMEN_TRUE_OUTCOME, OMEN_FALSE_OUTCOME], by simp, ?_⟩
    intro _ hb
    exact absurd rfl hb
  · refine ⟨by simp [h1], by simp [h2], fun _ _ => rfl⟩

/-- C7 witness: the string Maybe is rejected with the invalid-outcome error. -/
theorem C7_witness :
    get_boolean_outcome "Maybe" = .error .invalidOutcome :=
  (C7_thm "Maybe").2.2 (by decide) (by decide)

/-- C8 (confirmed): being binary and resolved does not make the outcome lookup
safe: a binary resolved market whose hex-decoded answer is 2 fails with an
index error, while no index error is possible when the decoded index is 0 or
1. -/
theorem C8_thm :
    (M8cex.is_binary = true ∧ M8cex.is_resolved = true ∧
      M8cex.boolean_outcome = .error .indexError) ∧
    (∀ (m : OmenMarket) (i : ℕ), m.is_binary = true → m.is_resolved = true →
      m.answerIndex = some i → i < 2 → m.boolean_outcome ≠ .error .indexError) := by
  refine ⟨⟨by rfl, by rfl, by rfl⟩, ?_⟩
  intro m i hb hr hai hlt h
  obtain ⟨a, hca, hpa⟩ : ∃ a, m.currentAnswer = some a ∧ parseHex a = some i := by
    rcases hca : m.currentAnswer with _ | a
    · rw [OmenMarket.answerIndex, hca] at hai
      simp at hai
    · refine ⟨a, rfl, ?_⟩
      rw [OmenMarket.answerIndex, hca] at hai
      exact hai
  have hlen : m.outcomes.length = 2 := by simpa [OmenMarket.is_binary] using hb
  have hi : i < m.outcomes.length := by rw [hlen]; exact hlt
  have hget : m.outcomes[i]? = some m.outcomes[i] := List.getElem?_eq_getElem hi
  simp [OmenMarket.boolean_outcome, hb, hr, hca, check_not_none, hpa, hget] at h
  exact get_boolean_outcome_ne_idx _ h

/-- C8 witness: a resolved binary market answering index 0 never raises an
index error. -/
theorem C8_witness : Mres.boolean_outcome ≠ .error .indexError :=
  (C8_thm).2 Mres 0 (by rfl) (by rfl) (by rfl) (by decide)

/-- C9 (confirmed): get_profit is not total: it fails with an error whenever
the embedded market is unresolved, is non-binary, or its decoded outcome label
at the answered index is unrecognized. -/
theorem C9_thm (b : OmenBet)
    (h : b.fpmm.is_resolved = false ∨ b.fpmm.is_binary = false ∨
      (∃ (i : ℕ) (lbl : String), b.fpmm.answerIndex = some i ∧
        b.fpmm.outcomes[i]? = some lbl ∧
        lbl ≠ OMEN_TRUE_OUTCOME ∧ lbl ≠ OMEN_FALSE_OUTCOME)) :
    ∃ e, b.get_profit = .error e := by
  cases hcb : b.boolean_outcome with
  | error e => exact ⟨e, by simp [OmenBet.get_profit, hcb]⟩
  | ok cb =>
    obtain ⟨e, he⟩ := fpmm_boolean_outcome_fails b.fpmm h
    exact ⟨e, by simp [OmenBet.get_profit, hcb, he]⟩

/-- C9 witness: a bet on an unresolved embedded market makes get_profit fail. -/
theorem C9_witness : ∃ e, B3cex.get_profit = .error e :=
  C9_thm B3cex (Or.inl (by rfl))

/-- C10 (confirmed): every successfully produced ResolvedBet carries the USD
collateral value of the bet as its amount while its currency tag is the xDai
constant, which differs from the usd tag. -/
theorem C10_thm (b : OmenBet) (rb : ResolvedBet)
    (h : b.to_generic_resolved_bet = .ok rb) :
    rb.amount.amount = b.collateralAmountUSD ∧ rb.amount.currency = Currency.xDai ∧
    Currency.xDai ≠ Currency.usd := by
  by_cases hr : b.fpmm.is_resolved = false
  · rw [OmenBet.to_generic_resolved_bet, if_pos hr] at h
    exact absurd h (by simp)
  · rw [OmenBet.to_generic_resolved_bet, if_neg hr] at h
    cases hcb : b.boolean_outcome with
    | error e => simp [hcb] at h
    | ok cb =>
      cases hmb : b.fpmm.boolean_outcome with
      | error e => simp [hcb, hmb] at h
      | ok mb =>
        cases hcn : check_not_none b.fpmm.resolutionTimestamp with
        | error e => simp [hcb, hmb, hcn] at h
        | ok rt =>
          cases hp : b.get_profit with
          | error e => simp [hcb, hmb, hcn, hp] at h
          | ok pr =>
            simp only [hcb, hmb, hcn, hp] at h
            obtain rfl := Except.ok.inj h
            exact ⟨rfl, rfl, by simp⟩

/-- C10 witness: the resolved projection of the scenario bet has amount 11,
the USD collateral value, tagged xDai. -/
theorem C10_witness :
    RBgood.amount.amount = Bgood.collateralAmountUSD ∧
    RBgood.amount.currency = Currency.xDai ∧ Currency.xDai ≠ Currency.usd := by
  refine C10_thm Bgood RBgood ?_
  have h := to_generic_ok Bgood false false 7 (by rfl) (by rfl) (by rfl)
  norm_num [Bgood, RBgood, wei_to_xdai] at h ⊢
  exact h

end Omen
